import Mathlib

/-!
Verification of the DeepZoom pyramid geometry and tile-rendering code in
`scripts/makePosterMontage.py` (the vendored `deepzoom.py` section:
`DeepZoomImageDescriptor` and `ImageCreator`).

Modelling conventions:
* Python integers are `ℤ` (unbounded, as in Python).
* Python floats are modelled by exact rationals `ℚ`.  Every float expression
  appearing in the embedded code is exact in IEEE double precision for all
  realistic inputs: `0.5 ** k` is a power of two, `width * 0.5 ** k` is an
  exact scaling by a power of two (exact for `width < 2^53`), and
  `math.log(m, 2)` is modelled by the exact ceiling base-2 logarithm that
  `int(math.ceil(math.log(m, 2)))` computes.
* Python exceptions are modelled with `Except DZError`:
  `AssertionError("Invalid pyramid level")` is `DZError.invalidLevel`,
  the `ValueError` raised by `math.log` on a nonpositive argument is
  `DZError.invalidDimensions`, and `ZeroDivisionError` is
  `DZError.zeroDivision`.
* PIL bitmaps are modelled symbolically by `BitmapExpr`: the source bitmap
  and formal `resize` applications, which is all the geometry claims need.
-/

/-- Error kinds raised by the embedded Python code. -/
inductive DZError : Type where
  | invalidDimensions : DZError
  | invalidLevel : DZError
  | zeroDivision : DZError
deriving DecidableEq, Repr

instance {ε α : Type} [DecidableEq ε] [DecidableEq α] : DecidableEq (Except ε α) := fun a b =>
  match a, b with
  | .ok x, .ok y =>
    if h : x = y then .isTrue (by rw [h]) else .isFalse (by intro hc; cases hc; exact h rfl)
  | .error x, .error y =>
    if h : x = y then .isTrue (by rw [h]) else .isFalse (by intro hc; cases hc; exact h rfl)
  | .ok _, .error _ => .isFalse (by intro hc; cases hc)
  | .error _, .ok _ => .isFalse (by intro hc; cases hc)

/-- Fuel-driven computation of `int(math.ceil(math.log(n, 2)))`: the number of
halving steps (rounding up) needed to bring `n` down to `1`.  The fuel is
structurally decreasing; `ceilLog2` below supplies enough fuel. -/
def clog2Fuel : ℕ → ℕ → ℕ
  | 0, _ => 0
  | fuel + 1, n => if n ≤ 1 then 0 else clog2Fuel fuel ((n + 1) / 2) + 1

/-- Exact value of `int(math.ceil(math.log(n, 2)))` for `n ≥ 1`. -/
def ceilLog2 (n : ℕ) : ℕ := clog2Fuel n n

/-- Embeds the constructor state of `DeepZoomImageDescriptor` (lines 71-85):
the five stored configuration fields.  The lazily memoized `_num_levels`
cache is pure memoization of `num_levels` below and needs no state. -/
structure DeepZoomImageDescriptor : Type where
  width : ℤ
  height : ℤ
  tile_size : ℤ
  tile_overlap : ℤ
  tile_format : String
deriving DecidableEq, Repr

/-- Source line 116: `max_dimension = max(self.width, self.height)`. -/
def max_dimension (d : DeepZoomImageDescriptor) : ℤ := max d.width d.height

/-- Embeds `DeepZoomImageDescriptor.num_levels` (lines 112-118):
`int(math.ceil(math.log(max_dimension, 2))) + 1`.  `math.log` raises
`ValueError` on a nonpositive argument, so the computation fails exactly
when `max(width, height) ≤ 0`. -/
def DeepZoomImageDescriptor.num_levels (d : DeepZoomImageDescriptor) : Except DZError ℕ :=
  if 1 ≤ max_dimension d then .ok (ceilLog2 (max_dimension d).toNat + 1)
  else .error .invalidDimensions

/-- Embeds the guard `assert 0 <= level and level < self.num_levels` shared by
the geometry queries (lines 122, 128, 136, 145).  Python's `and`
short-circuits: when `0 <= level` already fails the assertion fires without
evaluating `num_levels`; otherwise a `num_levels` failure propagates. -/
def DeepZoomImageDescriptor.checkLevel (d : DeepZoomImageDescriptor) (level : ℤ) :
    Except DZError ℕ :=
  if 0 ≤ level then
    match d.num_levels with
    | .error e => .error e
    | .ok n => if level < (n : ℤ) then .ok n else .error .invalidLevel
  else .error .invalidLevel

/-- Embeds `get_scale` (lines 120-124): `math.pow(0.5, max_level - level)`
with `max_level = num_levels - 1`. -/
def DeepZoomImageDescriptor.get_scale (d : DeepZoomImageDescriptor) (level : ℤ) :
    Except DZError ℚ :=
  match d.checkLevel level with
  | .error e => .error e
  | .ok n => .ok ((1 / 2 : ℚ) ^ ((n : ℤ) - 1 - level).toNat)

/-- Embeds `get_dimensions` (lines 126-132): the ceiling of each full
dimension multiplied by the level's scale. -/
def DeepZoomImageDescriptor.get_dimensions (d : DeepZoomImageDescriptor) (level : ℤ) :
    Except DZError (ℤ × ℤ) :=
  match d.checkLevel level with
  | .error e => .error e
  | .ok _ =>
    match d.get_scale level with
    | .error e => .error e
    | .ok scale => .ok (⌈(d.width : ℚ) * scale⌉, ⌈(d.height : ℚ) * scale⌉)

/-- Embeds `get_num_tiles` (lines 134-141):
`(ceil(w / tile_size), ceil(h / tile_size))`.  The Python float division
`float(w) / self.tile_size` raises `ZeroDivisionError` when `tile_size == 0`. -/
def DeepZoomImageDescriptor.get_num_tiles (d : DeepZoomImageDescriptor) (level : ℤ) :
    Except DZError (ℤ × ℤ) :=
  match d.checkLevel level with
  | .error e => .error e
  | .ok _ =>
    match d.get_dimensions level with
    | .error e => .error e
    | .ok wh =>
      if d.tile_size = 0 then .error .zeroDivision
      else .ok (⌈(wh.1 : ℚ) / (d.tile_size : ℚ)⌉, ⌈(wh.2 : ℚ) / (d.tile_size : ℚ)⌉)

/-- Embeds `get_tile_bounds` (lines 143-155).  Only the level is asserted;
`column` and `row` are used unchecked.  The returned tuple is
`(x, y, x + w, y + h)` after clamping `w`/`h` at the far edges. -/
def DeepZoomImageDescriptor.get_tile_bounds (d : DeepZoomImageDescriptor)
    (level column row : ℤ) : Except DZError (ℤ × ℤ × ℤ × ℤ) :=
  match d.checkLevel level with
  | .error e => .error e
  | .ok _ =>
    let offset_x : ℤ := if column = 0 then 0 else d.tile_overlap
    let offset_y : ℤ := if row = 0 then 0 else d.tile_overlap
    let x := column * d.tile_size - offset_x
    let y := row * d.tile_size - offset_y
    match d.get_dimensions level with
    | .error e => .error e
    | .ok wh =>
      let w := min (d.tile_size + (if column = 0 then 1 else 2) * d.tile_overlap) (wh.1 - x)
      let h := min (d.tile_size + (if row = 0 then 1 else 2) * d.tile_overlap) (wh.2 - y)
      .ok (x, y, x + w, y + h)

/-- Source line 55: `DEFAULT_IMAGE_FORMAT = "png"`. -/
def DEFAULT_IMAGE_FORMAT : String := "png"

/-- Source lines 65-68: the keys of the `IMAGE_FORMATS` dictionary. -/
def IMAGE_FORMATS : List String := ["jpg", "png"]

/-- Source lines 57-63: the keys of the `RESIZE_FILTERS` dictionary. -/
def RESIZE_FILTERS : List String := ["cubic", "bilinear", "bicubic", "nearest", "antialias"]

/-- Embeds the helper `_clamp` (lines 259-264). -/
def _clamp {α : Type} [LinearOrder α] (val lo hi : α) : α :=
  if val < lo then lo
  else if hi < val then hi
  else val

/-- Embeds the constructor state of `ImageCreator` (lines 160-177). -/
structure ImageCreator : Type where
  tile_size : ℤ
  tile_overlap : ℤ
  tile_format : String
  image_quality : ℚ
  resize_filter : Option String
  copy_metadata : Bool
deriving DecidableEq, Repr

/-- Embeds `ImageCreator.__init__` (lines 160-177): the overlap is clamped to
`[0, 10]`, the quality to `[0, 1]`, and an unrecognized format falls back to
`DEFAULT_IMAGE_FORMAT`; `tile_size` and `resize_filter` are stored unchecked. -/
def ImageCreator.init (tile_size tile_overlap : ℤ) (tile_format : String)
    (image_quality : ℚ) (resize_filter : Option String) (copy_metadata : Bool) :
    ImageCreator :=
  { tile_size := tile_size
    tile_overlap := _clamp tile_overlap 0 10
    tile_format := if IMAGE_FORMATS.contains tile_format then tile_format
                   else DEFAULT_IMAGE_FORMAT
    image_quality := _clamp image_quality 0 1
    resize_filter := resize_filter
    copy_metadata := copy_metadata }

/-- Symbolic PIL bitmaps: the source image held in `self.image`, and formal
`resize` applications recording the base expression, target size and filter
name. -/
inductive BitmapExpr : Type where
  | source : BitmapExpr
  | resize (base : BitmapExpr) (width height : ℤ) (filterName : String) : BitmapExpr
deriving DecidableEq, Repr

/-- Embeds `ImageCreator.get_image` (lines 179-190) run against descriptor `d`
(in `create`, `self.descriptor`): return the source bitmap unmodified when the
level's dimensions equal the descriptor's, otherwise resize the source bitmap
(`self.image`, always the original) to the level's dimensions, falling back to
the ANTIALIAS filter when `resize_filter` is absent or unrecognized. -/
def ImageCreator.get_image (c : ImageCreator) (d : DeepZoomImageDescriptor) (level : ℤ) :
    Except DZError BitmapExpr :=
  match d.checkLevel level with
  | .error e => .error e
  | .ok _ =>
    match d.get_dimensions level with
    | .error e => .error e
    | .ok wh =>
      if d.width = wh.1 ∧ d.height = wh.2 then .ok .source
      else
        match c.resize_filter with
        | none => .ok (.resize .source wh.1 wh.2 "antialias")
        | some f =>
          if RESIZE_FILTERS.contains f then .ok (.resize .source wh.1 wh.2 f)
          else .ok (.resize .source wh.1 wh.2 "antialias")

/-- Python `int()` applied to a float/rational: truncation toward zero. -/
def truncInt (q : ℚ) : ℤ := if 0 ≤ q then ⌊q⌋ else ⌈q⌉

/-- Python 3 `round()` to an integer: round half to even. -/
def pyRound (q : ℚ) : ℤ :=
  if q - ⌊q⌋ < 1 / 2 then ⌊q⌋
  else if 1 / 2 < q - ⌊q⌋ then ⌊q⌋ + 1
  else if ⌊q⌋ % 2 = 0 then ⌊q⌋ else ⌊q⌋ + 1

/-- Embeds the per-tile encoding-parameter computation in `ImageCreator.create`
(lines 240-245): `int(self.image_quality * 100)` for the JPEG branch and
`round((1 - self.image_quality) * 10)` for the PNG branch. -/
def tileEncodingParam (tile_format : String) (image_quality : ℚ) : ℤ :=
  if tile_format = "jpg" then truncInt (image_quality * 100)
  else pyRound ((1 - image_quality) * 10)

/-- Embeds the descriptor construction in `ImageCreator.create` (lines 209-215):
the descriptor takes the source bitmap's dimensions and the creator's
(already clamped) tiling configuration. -/
def ImageCreator.descriptorFor (c : ImageCreator) (width height : ℤ) :
    DeepZoomImageDescriptor :=
  { width := width
    height := height
    tile_size := c.tile_size
    tile_overlap := c.tile_overlap
    tile_format := c.tile_format }

/-! ### Concrete descriptors used in the claim instances -/

/-- The spec's concrete scenario: width 1024, height 768, tileSize 254, overlap 1. -/
def descr1024 : DeepZoomImageDescriptor :=
  { width := 1024, height := 768, tile_size := 254, tile_overlap := 1, tile_format := "png" }

/-- The spec's concrete scenario: width = height = 254, tileSize 254, overlap 1. -/
def descr254 : DeepZoomImageDescriptor :=
  { width := 254, height := 254, tile_size := 254, tile_overlap := 1, tile_format := "png" }

/-- A descriptor whose overlap exceeds its tile size (both reachable through
`ImageCreator`, which clamps the overlap only to `[0, 10]` and never checks
`tile_size`). -/
def descr3 : DeepZoomImageDescriptor :=
  { width := 3, height := 1, tile_size := 1, tile_overlap := 2, tile_format := "png" }

/-- A descriptor with nonpositive width but positive height. -/
def descr05 : DeepZoomImageDescriptor :=
  { width := 0, height := 5, tile_size := 254, tile_overlap := 1, tile_format := "png" }

/-- A descriptor with `tile_size = 0`. -/
def descrZeroTs : DeepZoomImageDescriptor :=
  { width := 5, height := 5, tile_size := 0, tile_overlap := 1, tile_format := "png" }

/-! ### Helper lemmas about the embedded operations -/

theorem clog2Fuel_eq_clog (fuel : ℕ) : ∀ n : ℕ, n ≤ fuel → clog2Fuel fuel n = Nat.clog 2 n := by
  induction fuel with
  | zero =>
    intro n hn
    have : n = 0 := by omega
    subst this
    simp [clog2Fuel]
  | succ fuel ih =>
    intro n hn
    by_cases h1 : n ≤ 1
    · simp [clog2Fuel, h1, Nat.clog_of_right_le_one h1]
    · have h2 : 2 ≤ n := by omega
      have hstep : clog2Fuel (fuel + 1) n = clog2Fuel fuel ((n + 1) / 2) + 1 := by
        simp [clog2Fuel, h1]
      rw [hstep, ih _ (by omega), Nat.clog_of_two_le (by norm_num) h2]
      norm_num

theorem ceilLog2_eq_clog (n : ℕ) : ceilLog2 n = Nat.clog 2 n :=
  clog2Fuel_eq_clog n n le_rfl

theorem num_levels_ok_iff (d : DeepZoomImageDescriptor) (n : ℕ) :
    d.num_levels = .ok n ↔ 1 ≤ max_dimension d ∧ n = ceilLog2 (max_dimension d).toNat + 1 := by
  unfold DeepZoomImageDescriptor.num_levels
  split_ifs with h
  · constructor
    · intro he
      injection he with he
      exact ⟨h, he.symm⟩
    · rintro ⟨-, rfl⟩
      rfl
  · constructor
    · intro he
      cases he
    · rintro ⟨h1, -⟩
      exact absurd h1 h

theorem num_levels_pos (d : DeepZoomImageDescriptor) (n : ℕ) (hn : d.num_levels = .ok n) :
    1 ≤ n := by
  rcases (num_levels_ok_iff d n).mp hn with ⟨-, rfl⟩
  omega

theorem checkLevel_ok (d : DeepZoomImageDescriptor) (n : ℕ) (level : ℤ)
    (hn : d.num_levels = .ok n) (h0 : 0 ≤ level) (h1 : level < (n : ℤ)) :
    d.checkLevel level = .ok n := by
  unfold DeepZoomImageDescriptor.checkLevel
  rw [if_pos h0, hn]
  exact if_pos h1

theorem checkLevel_error (d : DeepZoomImageDescriptor) (n : ℕ) (level : ℤ)
    (hn : d.num_levels = .ok n) (h : ¬(0 ≤ level ∧ level < (n : ℤ))) :
    d.checkLevel level = .error .invalidLevel := by
  unfold DeepZoomImageDescriptor.checkLevel
  by_cases h0 : 0 ≤ level
  · have h1 : ¬ level < (n : ℤ) := fun hl => h ⟨h0, hl⟩
    rw [if_pos h0, hn]
    simp [h1]
  · rw [if_neg h0]

theorem get_scale_ok (d : DeepZoomImageDescriptor) (n : ℕ) (level : ℤ)
    (hn : d.num_levels = .ok n) (h0 : 0 ≤ level) (h1 : level < (n : ℤ)) :
    d.get_scale level = .ok ((1 / 2 : ℚ) ^ ((n : ℤ) - 1 - level).toNat) := by
  unfold DeepZoomImageDescriptor.get_scale
  rw [checkLevel_ok d n level hn h0 h1]

theorem get_dimensions_ok (d : DeepZoomImageDescriptor) (n : ℕ) (level : ℤ)
    (hn : d.num_levels = .ok n) (h0 : 0 ≤ level) (h1 : level < (n : ℤ)) :
    d.get_dimensions level =
      .ok (⌈(d.width : ℚ) * (1 / 2 : ℚ) ^ ((n : ℤ) - 1 - level).toNat⌉,
           ⌈(d.height : ℚ) * (1 / 2 : ℚ) ^ ((n : ℤ) - 1 - level).toNat⌉) := by
  unfold DeepZoomImageDescriptor.get_dimensions
  rw [checkLevel_ok d n level hn h0 h1, get_scale_ok d n level hn h0 h1]

theorem get_num_tiles_ok (d : DeepZoomImageDescriptor) (n : ℕ) (level : ℤ)
    (hn : d.num_levels = .ok n) (h0 : 0 ≤ level) (h1 : level < (n : ℤ))
    (hts : d.tile_size ≠ 0) :
    d.get_num_tiles level =
      .ok (⌈((⌈(d.width : ℚ) * (1 / 2 : ℚ) ^ ((n : ℤ) - 1 - level).toNat⌉ : ℤ) : ℚ) /
             (d.tile_size : ℚ)⌉,
           ⌈((⌈(d.height : ℚ) * (1 / 2 : ℚ) ^ ((n : ℤ) - 1 - level).toNat⌉ : ℤ) : ℚ) /
             (d.tile_size : ℚ)⌉) := by
  unfold DeepZoomImageDescriptor.get_num_tiles
  rw [checkLevel_ok d n level hn h0 h1, get_dimensions_ok d n level hn h0 h1]
  simp [hts]

theorem get_tile_bounds_ok (d : DeepZoomImageDescriptor) (n : ℕ) (level column row : ℤ)
    (hn : d.num_levels = .ok n) (h0 : 0 ≤ level) (h1 : level < (n : ℤ)) :
    d.get_tile_bounds level column row =
      .ok (column * d.tile_size - (if column = 0 then 0 else d.tile_overlap),
           row * d.tile_size - (if row = 0 then 0 else d.tile_overlap),
           column * d.tile_size - (if column = 0 then 0 else d.tile_overlap) +
             min (d.tile_size + (if column = 0 then 1 else 2) * d.tile_overlap)
               ((⌈(d.width : ℚ) * (1 / 2 : ℚ) ^ ((n : ℤ) - 1 - level).toNat⌉ : ℤ) -
                 (column * d.tile_size - (if column = 0 then 0 else d.tile_overlap))),
           row * d.tile_size - (if row = 0 then 0 else d.tile_overlap) +
             min (d.tile_size + (if row = 0 then 1 else 2) * d.tile_overlap)
               ((⌈(d.height : ℚ) * (1 / 2 : ℚ) ^ ((n : ℤ) - 1 - level).toNat⌉ : ℤ) -
                 (row * d.tile_size - (if row = 0 then 0 else d.tile_overlap)))) := by
  unfold DeepZoomImageDescriptor.get_tile_bounds
  rw [checkLevel_ok d n level hn h0 h1, get_dimensions_ok d n level hn h0 h1]

theorem level_dim_pos (w : ℤ) (k : ℕ) (hw : 1 ≤ w) : 1 ≤ ⌈(w : ℚ) * (1 / 2 : ℚ) ^ k⌉ := by
  have h1 : (0 : ℚ) < (w : ℚ) := by exact_mod_cast hw
  have h2 : (0 : ℚ) < (1 / 2 : ℚ) ^ k := pow_pos (by norm_num) k
  have := Int.ceil_pos.mpr (mul_pos h1 h2)
  omega

theorem col_mul_lt (lw ts c : ℤ) (hts : 1 ≤ ts) (hc : c < ⌈(lw : ℚ) / (ts : ℚ)⌉) :
    c * ts < lw := by
  by_contra hle
  push_neg at hle
  have hts' : (0 : ℚ) < (ts : ℚ) := by exact_mod_cast hts
  have hq : (lw : ℚ) / (ts : ℚ) ≤ ((c : ℤ) : ℚ) := by
    rw [div_le_iff₀ hts']
    exact_mod_cast hle
  have := Int.ceil_le.mpr hq
  omega

theorem tile_axis_bounds (ts ov c lw : ℤ)
    (hts : 1 ≤ ts) (hov0 : 0 ≤ ov) (hov : ov ≤ ts) (hlw : 1 ≤ lw)
    (hc0 : 0 ≤ c) (hc : c < ⌈(lw : ℚ) / (ts : ℚ)⌉) :
    0 ≤ c * ts - (if c = 0 then 0 else ov) ∧
    c * ts - (if c = 0 then 0 else ov) <
      c * ts - (if c = 0 then 0 else ov) +
        min (ts + (if c = 0 then 1 else 2) * ov)
          (lw - (c * ts - (if c = 0 then 0 else ov))) ∧
    c * ts - (if c = 0 then 0 else ov) +
        min (ts + (if c = 0 then 1 else 2) * ov)
          (lw - (c * ts - (if c = 0 then 0 else ov))) ≤ lw := by
  have key : c * ts < lw := col_mul_lt lw ts c hts hc
  rcases eq_or_ne c 0 with rfl | hne
  · simp only [if_pos rfl, zero_mul, zero_sub, neg_zero, sub_zero]
    rw [min_def]
    split_ifs <;> omega
  · have hc1 : 1 ≤ c := by omega
    have hP : ts ≤ c * ts := le_mul_of_one_le_left (by omega) hc1
    simp only [if_neg hne]
    generalize hg : c * ts = P at key hP ⊢
    rw [min_def]
    split_ifs <;> omega

theorem clamp_eq_max_min {α : Type} [LinearOrder α] (v lo hi : α) (h : lo ≤ hi) :
    _clamp v lo hi = max lo (min v hi) := by
  unfold _clamp
  rcases lt_or_le v lo with h1 | h1
  · rw [if_pos h1, min_eq_left (h1.le.trans h), max_eq_left h1.le]
  · rw [if_neg (not_lt.mpr h1)]
    rcases lt_or_le hi v with h2 | h2
    · rw [if_pos h2, min_eq_right h2.le, max_eq_right h]
    · rw [if_neg (not_lt.mpr h2), min_eq_left h2, max_eq_right h1]

theorem pyRound_bounds (x : ℚ) (lo hi : ℤ) (hlo : (lo : ℚ) ≤ x) (hhi : x ≤ (hi : ℚ)) :
    lo ≤ pyRound x ∧ pyRound x ≤ hi := by
  have hfl : lo ≤ ⌊x⌋ := Int.le_floor.mpr hlo
  have hflx : (⌊x⌋ : ℚ) ≤ x := Int.floor_le x
  have hup : ⌊x⌋ ≤ hi := by
    have := Int.floor_le_floor hhi
    rwa [Int.floor_intCast] at this
  have hsucc : ¬ x - (⌊x⌋ : ℚ) < 1 / 2 → ⌊x⌋ + 1 ≤ hi := by
    intro ha
    push_neg at ha
    have : (⌊x⌋ : ℚ) + 1 / 2 ≤ (hi : ℚ) := by linarith
    have : (⌊x⌋ : ℚ) < (hi : ℚ) := by linarith
    have : ⌊x⌋ < hi := by exact_mod_cast this
    omega
  unfold pyRound
  split_ifs with a b c
  · exact ⟨hfl, hup⟩
  · exact ⟨by omega, hsucc a⟩
  · exact ⟨hfl, hup⟩
  · exact ⟨by omega, hsucc a⟩

theorem descr1024_num_levels : descr1024.num_levels = .ok 11 := by
  rw [num_levels_ok_iff]
  exact ⟨by decide, by decide⟩

theorem descr1024_dimensions : descr1024.get_dimensions 10 = .ok (1024, 768) := by
  rw [get_dimensions_ok descr1024 11 10 descr1024_num_levels (by norm_num) (by norm_num)]
  norm_num [descr1024]

theorem descr1024_num_tiles : descr1024.get_num_tiles 10 = .ok (5, 4) := by
  rw [get_num_tiles_ok descr1024 11 10 descr1024_num_levels (by norm_num) (by norm_num)
    (by decide)]
  norm_num [descr1024, show (((11 : ℕ) : ℤ) - 1 - 10).toNat = 0 from by norm_num]
  constructor <;> (rw [Int.ceil_eq_iff]; norm_num)

theorem descr1024_bounds_00 : descr1024.get_tile_bounds 10 0 0 = .ok (0, 0, 255, 255) := by
  rw [get_tile_bounds_ok descr1024 11 10 0 0 descr1024_num_levels (by norm_num) (by norm_num)]
  norm_num [descr1024, show (((11 : ℕ) : ℤ) - 1 - 10).toNat = 0 from by norm_num]

theorem descr1024_bounds_10 : descr1024.get_tile_bounds 10 1 0 = .ok (253, 0, 509, 255) := by
  rw [get_tile_bounds_ok descr1024 11 10 1 0 descr1024_num_levels (by norm_num) (by norm_num)]
  norm_num [descr1024, show (((11 : ℕ) : ℤ) - 1 - 10).toNat = 0 from by norm_num]

theorem descr254_num_levels : descr254.num_levels = .ok 9 := by
  rw [num_levels_ok_iff]
  exact ⟨by decide, by decide⟩

theorem descr254_num_tiles_8 : descr254.get_num_tiles 8 = .ok (1, 1) := by
  rw [get_num_tiles_ok descr254 9 8 descr254_num_levels (by norm_num) (by norm_num)
    (by decide)]
  norm_num [descr254, show (((9 : ℕ) : ℤ) - 1 - 8).toNat = 0 from by norm_num]

theorem descr3_num_levels : descr3.num_levels = .ok 3 := by
  rw [num_levels_ok_iff]
  exact ⟨by decide, by decide⟩

theorem descr3_num_tiles_2 : descr3.get_num_tiles 2 = .ok (3, 1) := by
  rw [get_num_tiles_ok descr3 3 2 descr3_num_levels (by norm_num) (by norm_num) (by decide)]
  norm_num [descr3, show (((3 : ℕ) : ℤ) - 1 - 2).toNat = 0 from by norm_num]

/-- C1 counterexample: the descriptor `descr3` has width 3 ≥ 1 and height 1 ≥ 1,
tile (column 1, row 0) of its finest level 2 is a valid coordinate (the level's
tile grid is 3 × 1), yet `get_tile_bounds` returns x1 = -1, violating the
claimed `0 ≤ x1`. -/
theorem C1_counterexample :
    1 ≤ descr3.width ∧ 1 ≤ descr3.height ∧
    descr3.get_num_tiles 2 = .ok (3, 1) ∧
    descr3.get_tile_bounds 2 1 0 = .ok (-1, 0, 3, 1) ∧
    ¬ 0 ≤ (-1 : ℤ) := by
  refine ⟨by decide, by decide, descr3_num_tiles_2, ?_, by norm_num⟩
  rw [get_tile_bounds_ok descr3 3 2 1 0 descr3_num_levels (by norm_num) (by norm_num)]
  norm_num [descr3, show (((3 : ℕ) : ℤ) - 1 - 2).toNat = 0 from by norm_num]

/-- C1 amended: under the additional configuration constraints `1 ≤ tileSize`
and `0 ≤ tileOverlap ≤ tileSize` (which the source never enforces), every
valid tile's bounds satisfy `0 ≤ x1 < x2 ≤ levelWidth` and
`0 ≤ y1 < y2 ≤ levelHeight`. -/
theorem C1_bounds_within_level (d : DeepZoomImageDescriptor) (n : ℕ)
    (level column row nc nr lw lh x1 y1 x2 y2 : ℤ)
    (hw : 1 ≤ d.width) (hh : 1 ≤ d.height)
    (hts : 1 ≤ d.tile_size) (hov0 : 0 ≤ d.tile_overlap) (hov : d.tile_overlap ≤ d.tile_size)
    (hn : d.num_levels = .ok n) (h0 : 0 ≤ level) (h1 : level < (n : ℤ))
    (hnt : d.get_num_tiles level = .ok (nc, nr))
    (hc0 : 0 ≤ column) (hc : column < nc) (hr0 : 0 ≤ row) (hr : row < nr)
    (hdim : d.get_dimensions level = .ok (lw, lh))
    (hb : d.get_tile_bounds level column row = .ok (x1, y1, x2, y2)) :
    0 ≤ x1 ∧ x1 < x2 ∧ x2 ≤ lw ∧ 0 ≤ y1 ∧ y1 < y2 ∧ y2 ≤ lh := by
  rw [get_dimensions_ok d n level hn h0 h1] at hdim
  rw [get_num_tiles_ok d n level hn h0 h1 (by omega)] at hnt
  rw [get_tile_bounds_ok d n level column row hn h0 h1] at hb
  simp only [Except.ok.injEq, Prod.mk.injEq] at hdim hnt hb
  obtain ⟨hlw, hlh⟩ := hdim
  obtain ⟨hnc, hnr⟩ := hnt
  obtain ⟨hx1, hy1, hx2, hy2⟩ := hb
  subst hlw hlh hnc hnr hx1 hy1 hx2 hy2
  have LWpos := level_dim_pos d.width (((n : ℤ) - 1 - level).toNat) hw
  have LHpos := level_dim_pos d.height (((n : ℤ) - 1 - level).toNat) hh
  have axisX := tile_axis_bounds d.tile_size d.tile_overlap column
    (⌈(d.width : ℚ) * (1 / 2 : ℚ) ^ ((n : ℤ) - 1 - level).toNat⌉)
    hts hov0 hov LWpos hc0 hc
  have axisY := tile_axis_bounds d.tile_size d.tile_overlap row
    (⌈(d.height : ℚ) * (1 / 2 : ℚ) ^ ((n : ℤ) - 1 - level).toNat⌉)
    hts hov0 hov LHpos hr0 hr
  exact ⟨axisX.1, axisX.2.1, axisX.2.2, axisY.1, axisY.2.1, axisY.2.2⟩

/-- C1 witness: the amended theorem applied to the spec's 1024 × 768 scenario
at level 10, tile (1, 0). -/
theorem C1_bounds_witness :
    descr1024.num_levels = .ok 11 ∧
    descr1024.get_num_tiles 10 = .ok (5, 4) ∧
    descr1024.get_dimensions 10 = .ok (1024, 768) ∧
    descr1024.get_tile_bounds 10 1 0 = .ok (253, 0, 509, 255) ∧
    (0 ≤ (253 : ℤ) ∧ (253 : ℤ) < 509 ∧ (509 : ℤ) ≤ 1024 ∧
     0 ≤ (0 : ℤ) ∧ (0 : ℤ) < 255 ∧ (255 : ℤ) ≤ 768) :=
  ⟨descr1024_num_levels, descr1024_num_tiles, descr1024_dimensions, descr1024_bounds_10,
    C1_bounds_within_level descr1024 11 10 1 0 5 4 1024 768 253 0 509 255
      (by decide) (by decide) (by decide) (by decide) (by decide)
      descr1024_num_levels (by norm_num) (by norm_num)
      descr1024_num_tiles (by norm_num) (by norm_num) (by norm_num) (by norm_num)
      descr1024_dimensions descr1024_bounds_10⟩

/-- C2: for every valid tile coordinate the bounds follow the offset /
box-width formulas of the source, and the spec's 1024 × 768 concrete scenario
holds. -/
theorem C2_offsets_and_box :
    (∀ (d : DeepZoomImageDescriptor) (n : ℕ) (level column row nc nr lw lh : ℤ),
      d.num_levels = .ok n → 0 ≤ level → level < (n : ℤ) →
      d.get_num_tiles level = .ok (nc, nr) →
      0 ≤ column → column < nc → 0 ≤ row → row < nr →
      d.get_dimensions level = .ok (lw, lh) →
      d.get_tile_bounds level column row =
        .ok (column * d.tile_size - (if column = 0 then 0 else d.tile_overlap),
             row * d.tile_size - (if row = 0 then 0 else d.tile_overlap),
             column * d.tile_size - (if column = 0 then 0 else d.tile_overlap) +
               min (d.tile_size + (if column = 0 then 1 else 2) * d.tile_overlap)
                 (lw - (column * d.tile_size - (if column = 0 then 0 else d.tile_overlap))),
             row * d.tile_size - (if row = 0 then 0 else d.tile_overlap) +
               min (d.tile_size + (if row = 0 then 1 else 2) * d.tile_overlap)
                 (lh - (row * d.tile_size - (if row = 0 then 0 else d.tile_overlap))))) ∧
    descr1024.get_num_tiles 10 = .ok (5, 4) ∧
    descr1024.get_tile_bounds 10 0 0 = .ok (0, 0, 255, 255) ∧
    descr1024.get_tile_bounds 10 1 0 = .ok (253, 0, 509, 255) := by
  refine ⟨?_, descr1024_num_tiles, descr1024_bounds_00, descr1024_bounds_10⟩
  intro d n level column row nc nr lw lh hn h0 h1 hnt hc0 hc hr0 hr hdim
  rw [get_dimensions_ok d n level hn h0 h1] at hdim
  simp only [Except.ok.injEq, Prod.mk.injEq] at hdim
  obtain ⟨hlw, hlh⟩ := hdim
  subst hlw hlh
  exact get_tile_bounds_ok d n level column row hn h0 h1

/-- C2 witness: the formula instantiated on the 1024 × 768 scenario at
level 10, tile (1, 0): the bounds start at (253, 0) = (254 - 1, 0). -/
theorem C2_offsets_witness :
    descr1024.num_levels = .ok 11 ∧ 0 ≤ (1 : ℤ) ∧ (1 : ℤ) < 5 ∧
    descr1024.get_tile_bounds 10 1 0 = .ok (253, 0, 509, 255) := by
  have h := (C2_offsets_and_box).1 descr1024 11 10 1 0 5 4 1024 768
    descr1024_num_levels (by norm_num) (by norm_num) descr1024_num_tiles
    (by norm_num) (by norm_num) (by norm_num) (by norm_num) descr1024_dimensions
  norm_num [descr1024] at h
  exact ⟨descr1024_num_levels, by norm_num, by norm_num, h⟩

/-- C3: for every descriptor with positive dimensions, `num_levels` returns
`ceil(log2(max(width, height))) + 1` (formalized with `Nat.clog 2`), this value
is at least 1, and for width = height = 254 it is 9. -/
theorem C3_num_levels_formula (d : DeepZoomImageDescriptor)
    (hw : 1 ≤ d.width) (hh : 1 ≤ d.height) :
    d.num_levels = .ok (Nat.clog 2 (max_dimension d).toNat + 1) ∧
    (∀ m : ℕ, d.num_levels = .ok m → 1 ≤ m) ∧
    descr254.num_levels = .ok 9 := by
  have h1 : 1 ≤ max_dimension d := le_trans hw (le_max_left _ _)
  refine ⟨?_, fun m hm => num_levels_pos d m hm, descr254_num_levels⟩
  rw [num_levels_ok_iff]
  exact ⟨h1, by rw [ceilLog2_eq_clog]⟩

/-- C3 witness: the formula applied to the 254 × 254 descriptor. -/
theorem C3_num_levels_witness :
    1 ≤ descr254.width ∧ 1 ≤ descr254.height ∧
    descr254.num_levels = .ok (Nat.clog 2 (max_dimension descr254).toNat + 1) :=
  ⟨by decide, by decide, (C3_num_levels_formula descr254 (by decide) (by decide)).1⟩

/-- C4: for every descriptor with positive dimensions, the finest level
`numLevels - 1` has scale exactly 1 and dimensions exactly (width, height). -/
theorem C4_finest_level_identity (d : DeepZoomImageDescriptor) (n : ℕ)
    (hw : 1 ≤ d.width) (hh : 1 ≤ d.height) (hn : d.num_levels = .ok n) :
    d.get_scale ((n : ℤ) - 1) = .ok 1 ∧
    d.get_dimensions ((n : ℤ) - 1) = .ok (d.width, d.height) := by
  have hpos : 1 ≤ n := num_levels_pos d n hn
  have h0 : 0 ≤ (n : ℤ) - 1 := by omega
  have h1 : (n : ℤ) - 1 < (n : ℤ) := by omega
  have hk : ((n : ℤ) - 1 - ((n : ℤ) - 1)).toNat = 0 := by omega
  constructor
  · rw [get_scale_ok d n _ hn h0 h1, hk, pow_zero]
  · rw [get_dimensions_ok d n _ hn h0 h1, hk, pow_zero, mul_one, mul_one,
      Int.ceil_intCast, Int.ceil_intCast]

/-- C4 witness: the 254 × 254 descriptor has 9 levels; level 8 has scale 1 and
dimensions (254, 254). -/
theorem C4_finest_level_witness :
    descr254.num_levels = .ok 9 ∧
    descr254.get_scale 8 = .ok 1 ∧ descr254.get_dimensions 8 = .ok (254, 254) := by
  have h := C4_finest_level_identity descr254 9 (by decide) (by decide) descr254_num_levels
  have e : ((9 : ℕ) : ℤ) - 1 = 8 := by norm_num
  rw [e] at h
  exact ⟨descr254_num_levels, h.1, h.2⟩

/-- C5 counterexample: on the 254 × 254 descriptor, level 8 has a 1 × 1 tile
grid, so column 1 is out of range — yet `get_tile_bounds(8, 1, 0)` returns a
normal result instead of failing. -/
theorem C5_counterexample :
    descr254.get_num_tiles 8 = .ok (1, 1) ∧
    descr254.get_tile_bounds 8 1 0 = .ok (253, 0, 254, 254) := by
  refine ⟨descr254_num_tiles_8, ?_⟩
  rw [get_tile_bounds_ok descr254 9 8 1 0 descr254_num_levels (by norm_num) (by norm_num)]
  norm_num [descr254, show (((9 : ℕ) : ℤ) - 1 - 8).toNat = 0 from by norm_num]

/-- C5 amended: `get_tile_bounds` fails (with the invalid-level assertion) for
every out-of-range level, but performs no validation at all of `column` and
`row`: for every in-range level it returns a normal result for arbitrary
column and row values. -/
theorem C5_level_check_only (d : DeepZoomImageDescriptor) (n : ℕ) (level column row : ℤ)
    (hn : d.num_levels = .ok n) :
    (¬ (0 ≤ level ∧ level < (n : ℤ)) →
      d.get_tile_bounds level column row = .error .invalidLevel) ∧
    ((0 ≤ level ∧ level < (n : ℤ)) →
      ∃ t, d.get_tile_bounds level column row = .ok t) := by
  constructor
  · intro h
    unfold DeepZoomImageDescriptor.get_tile_bounds
    rw [checkLevel_error d n level hn h]
  · rintro ⟨h0, h1⟩
    exact ⟨_, get_tile_bounds_ok d n level column row hn h0 h1⟩

/-- C5 witness: on the 254 × 254 descriptor, level 99 fails with the
invalid-level error, while the out-of-range tile (5, -3) of level 8 still
returns a normal result. -/
theorem C5_level_check_witness :
    descr254.num_levels = .ok 9 ∧
    descr254.get_tile_bounds 99 0 0 = .error .invalidLevel ∧
    (∃ t, descr254.get_tile_bounds 8 5 (-3) = .ok t) :=
  ⟨descr254_num_levels,
    (C5_level_check_only descr254 9 99 0 0 descr254_num_levels).1 (by norm_num),
    (C5_level_check_only descr254 9 8 5 (-3) descr254_num_levels).2 (by norm_num)⟩

/-- C6 counterexample: the descriptor with width 0 and height 5 has width ≤ 0,
yet `num_levels` succeeds (returning 4) instead of failing. -/
theorem C6_counterexample :
    descr05.width ≤ 0 ∧ descr05.num_levels = .ok 4 := by
  refine ⟨by decide, ?_⟩
  rw [num_levels_ok_iff]
  exact ⟨by decide, by decide⟩

/-- C6 amended: `num_levels` succeeds iff `max(width, height) ≥ 1` and fails
with the invalid-dimensions error iff `max(width, height) ≤ 0`, i.e. only when
BOTH dimensions are nonpositive; a single nonpositive dimension goes
undetected. -/
theorem C6_num_levels_failure (d : DeepZoomImageDescriptor) :
    ((∃ m, d.num_levels = .ok m) ↔ 1 ≤ max_dimension d) ∧
    (d.num_levels = .error .invalidDimensions ↔ max_dimension d ≤ 0) := by
  unfold DeepZoomImageDescriptor.num_levels
  split_ifs with h
  · constructor
    · exact ⟨fun _ => h, fun _ => ⟨_, rfl⟩⟩
    · constructor
      · intro hx
        cases hx
      · intro hx
        exact absurd hx (by omega)
  · push_neg at h
    constructor
    · constructor
      · rintro ⟨m, hm⟩
        cases hm
      · intro hx
        exact absurd hx (by omega)
    · exact ⟨fun _ => by omega, fun _ => rfl⟩

/-- C7 counterexample: at imageQuality 7/8 (= 0.875, exact in binary floating
point) the JPEG branch passes `int(0.875 * 100) = 87` to the codec, while the
claimed `round(0.875 * 100)` is 88. -/
theorem C7_counterexample :
    tileEncodingParam "jpg" (7 / 8) = 87 ∧ round ((7 / 8 : ℚ) * 100) = 88 := by
  constructor
  · have h : (0 : ℚ) ≤ 7 / 8 * 100 := by norm_num
    simp only [tileEncodingParam, if_pos rfl, truncInt, if_pos h, if_true]
    rw [Int.floor_eq_iff]
    norm_num
  · rw [round_eq, Int.floor_eq_iff]
    norm_num

/-- C7 amended: for imageQuality in [0, 1] the JPEG branch passes the
TRUNCATION `int(imageQuality * 100)` = `⌊imageQuality * 100⌋` (an integer in
[0, 100]), not the rounding the claim states; the PNG branch passes
`round((1 - imageQuality) * 10)` (Python banker's rounding), an integer in
[0, 10]. -/
theorem C7_encoding_params (q : ℚ) (h0 : 0 ≤ q) (h1 : q ≤ 1) :
    tileEncodingParam "jpg" q = ⌊q * 100⌋ ∧
    0 ≤ ⌊q * 100⌋ ∧ ⌊q * 100⌋ ≤ 100 ∧
    tileEncodingParam "png" q = pyRound ((1 - q) * 10) ∧
    0 ≤ pyRound ((1 - q) * 10) ∧ pyRound ((1 - q) * 10) ≤ 10 := by
  have hq0 : (0 : ℚ) ≤ q * 100 := by nlinarith
  have hq1 : q * 100 ≤ (100 : ℚ) := by nlinarith
  have hp0 : ((0 : ℤ) : ℚ) ≤ (1 - q) * 10 := by push_cast; nlinarith
  have hp1 : (1 - q) * 10 ≤ ((10 : ℤ) : ℚ) := by push_cast; nlinarith
  have hpy := pyRound_bounds ((1 - q) * 10) 0 10 hp0 hp1
  refine ⟨?_, Int.floor_nonneg.mpr hq0, ?_, ?_, hpy.1, hpy.2⟩
  · simp only [tileEncodingParam, if_pos rfl, truncInt, if_pos hq0, if_true]
  · have := Int.floor_le_floor hq1
    rwa [show ⌊(100 : ℚ)⌋ = 100 from by norm_num] at this
  · simp only [tileEncodingParam]
    rw [if_neg (by decide)]

/-- C7 witness: the amended statement at imageQuality 4/5 = 0.8, the script's
default: JPEG quality 80, PNG compression level 2. -/
theorem C7_encoding_witness :
    (0 ≤ (4 / 5 : ℚ) ∧ (4 / 5 : ℚ) ≤ 1) ∧
    tileEncodingParam "jpg" (4 / 5) = ⌊(4 / 5 : ℚ) * 100⌋ ∧
    tileEncodingParam "png" (4 / 5) = pyRound ((1 - 4 / 5) * 10) := by
  have h := C7_encoding_params (4 / 5) (by norm_num) (by norm_num)
  exact ⟨⟨by norm_num, by norm_num⟩, h.1, h.2.2.2.1⟩

/-- C8: the renderer constructor is total and recovers every out-of-range or
unrecognized configuration value by clamping or defaulting: the stored overlap
is the clamp of the input into [0, 10], the stored quality the clamp into
[0, 1], and any format outside {jpg, png} is replaced by "png"; concretely,
overlap 15 becomes 10, quality 3/2 becomes 1, format "bmp" becomes "png". -/
theorem C8_constructor_clamping (ts ov : ℤ) (fmt : String) (q : ℚ)
    (rf : Option String) (cm : Bool) :
    (ImageCreator.init ts ov fmt q rf cm).tile_overlap = max 0 (min ov 10) ∧
    (ImageCreator.init ts ov fmt q rf cm).image_quality = max 0 (min q 1) ∧
    (IMAGE_FORMATS.contains fmt = false →
      (ImageCreator.init ts ov fmt q rf cm).tile_format = "png") ∧
    (ImageCreator.init 254 15 "bmp" (3 / 2) none false).tile_overlap = 10 ∧
    (ImageCreator.init 254 15 "bmp" (3 / 2) none false).image_quality = 1 ∧
    (ImageCreator.init 254 15 "bmp" (3 / 2) none false).tile_format = "png" := by
  refine ⟨clamp_eq_max_min ov 0 10 (by norm_num), clamp_eq_max_min q 0 1 (by norm_num),
    ?_, by decide, ?_, by decide⟩
  · intro h
    show (if IMAGE_FORMATS.contains fmt then fmt else DEFAULT_IMAGE_FORMAT) = "png"
    rw [h]
    rfl
  · show _clamp (3 / 2 : ℚ) 0 1 = 1
    norm_num [_clamp]

/-- C8 witness: "bmp" is not a recognized format and is replaced by "png". -/
theorem C8_constructor_witness :
    IMAGE_FORMATS.contains "bmp" = false ∧
    (ImageCreator.init 254 15 "bmp" (3 / 2) none false).tile_format = "png" :=
  ⟨by decide, (C8_constructor_clamping 254 15 "bmp" (3 / 2) none false).2.2.1 (by decide)⟩

/-- C9: when a level's dimensions equal the descriptor's (source) dimensions,
`get_image` returns the source bitmap unmodified; otherwise it returns a
resize of the ORIGINAL source bitmap to the level's dimensions — never a
resize of another level's output. -/
theorem C9_resample_from_source (c : ImageCreator) (d : DeepZoomImageDescriptor) (n : ℕ)
    (level lw lh : ℤ)
    (hn : d.num_levels = .ok n) (h0 : 0 ≤ level) (h1 : level < (n : ℤ))
    (hdim : d.get_dimensions level = .ok (lw, lh)) :
    ((d.width = lw ∧ d.height = lh) → c.get_image d level = .ok .source) ∧
    (¬ (d.width = lw ∧ d.height = lh) →
      ∃ f, c.get_image d level = .ok (.resize .source lw lh f)) := by
  unfold ImageCreator.get_image
  rw [checkLevel_ok d n level hn h0 h1, hdim]
  constructor
  · intro h
    simp [h]
  · intro h
    rcases hrf : c.resize_filter with _ | f
    · exact ⟨"antialias", by simp [h, hrf]⟩
    · by_cases hmem : f ∈ RESIZE_FILTERS
      · exact ⟨f, by simp [h, hrf, hmem]⟩
      · exact ⟨"antialias", by simp [h, hrf, hmem]⟩

/-- C9 witness: on the 1024 × 768 descriptor, level 10 has exactly the source
dimensions, and `get_image` returns the source bitmap unmodified. -/
theorem C9_resample_witness :
    descr1024.get_dimensions 10 = .ok (1024, 768) ∧
    (ImageCreator.init 254 1 "png" (4 / 5) (some "antialias") false).get_image
      descr1024 10 = .ok .source :=
  ⟨descr1024_dimensions,
    (C9_resample_from_source (ImageCreator.init 254 1 "png" (4 / 5) (some "antialias") false)
      descr1024 11 10 1024 768 descr1024_num_levels (by norm_num) (by norm_num)
      descr1024_dimensions).1 (by decide)⟩

/-- C10: `tile_size` is stored unvalidated by the renderer constructor (any
integer is accepted), and with `tile_size = 0` every grid query on a valid
level fails with the division-by-zero error instead of returning a value. -/
theorem C10_tile_size_unchecked (ts ov : ℤ) (fmt : String) (q : ℚ)
    (rf : Option String) (cm : Bool)
    (d : DeepZoomImageDescriptor) (n : ℕ) (level : ℤ)
    (hzero : d.tile_size = 0)
    (hn : d.num_levels = .ok n) (h0 : 0 ≤ level) (h1 : level < (n : ℤ)) :
    (ImageCreator.init ts ov fmt q rf cm).tile_size = ts ∧
    d.get_num_tiles level = .error .zeroDivision := by
  constructor
  · rfl
  · unfold DeepZoomImageDescriptor.get_num_tiles
    rw [checkLevel_ok d n level hn h0 h1, get_dimensions_ok d n level hn h0 h1]
    simp [hzero]

/-- C10 witness: the zero-tile-size descriptor (5 × 5 image) has 4 levels and
its grid query at level 0 fails with the division error; the constructor
stores tile size 0 unchanged. -/
theorem C10_tile_size_witness :
    descrZeroTs.tile_size = 0 ∧ descrZeroTs.num_levels = .ok 4 ∧
    (ImageCreator.init 0 1 "png" (4 / 5) none false).tile_size = 0 ∧
    descrZeroTs.get_num_tiles 0 = .error .zeroDivision := by
  have hn : descrZeroTs.num_levels = .ok 4 := by
    rw [num_levels_ok_iff]
    exact ⟨by decide, by decide⟩
  have h := C10_tile_size_unchecked 0 1 "png" (4 / 5) none false descrZeroTs 4 0
    (by decide) hn (by norm_num) (by norm_num)
  exact ⟨by decide, hn, h.1, h.2⟩
